import Mathlib

/-
Verification of the report-request orchestrator in `server.py`:
the keyword-scoring template classifier (`detect_report_type`), the render
payload construction and response normalisation (`_render_report`), the
template-listing operation (`list_templates`) and the report-data dict
construction shared by the report-generating tools.
-/

namespace JsreportServer

/-- Python `str.lower` restricted to the letters relevant to the keyword
table: ASCII uppercase and Latin-1 uppercase letters (excluding the
multiplication sign) map to lowercase; every other character is kept. -/
def pyLower (c : Char) : Char :=
  if 'A' ≤ c ∧ c ≤ 'Z' then Char.ofNat (c.toNat + 32)
  else if 0xC0 ≤ c.toNat ∧ c.toNat ≤ 0xDE ∧ c.toNat ≠ 0xD7 then Char.ofNat (c.toNat + 32)
  else c

/-- Lowercase a whole string, character by character. -/
def lowerStr (s : String) : String := String.mk (s.toList.map pyLower)

/-- One entry of `summaryCards` (`{title, value}`). -/
structure SummaryCard where
  title : String
  value : String
deriving DecidableEq, Repr

/-- One entry of `sections`: a nested partial report with its own cards
and table, as in the documented executive-report examples. -/
structure ReportSection where
  title : String
  cards : List SummaryCard
  tableHeaders : List String
  tableData : List (List String)
deriving DecidableEq, Repr

/-- The slice of the data dict read by `detect_report_type`: the three text
fields (`data.get(..., "")`, so absence is the empty string) and the
`sections` attachment (absence is the empty list, matching Python
truthiness of `data.get("sections")`). -/
structure ReportData where
  reportTitle : String
  reportType : String
  reportSubtitle : String
  sections : List ReportSection
deriving DecidableEq, Repr

/-- The combined search text `f"{title} {report_type} {subtitle}"` after
each field is lowercased, from lines 53-58 of `server.py`. -/
def searchText (d : ReportData) : String :=
  lowerStr d.reportTitle ++ " " ++ lowerStr d.reportType ++ " " ++ lowerStr d.reportSubtitle

/-- Boolean test that `w` begins the list `t`. -/
def headMatch : List Char → List Char → Bool
  | [], _ => true
  | _ :: _, [] => false
  | a :: as, b :: bs => a == b && headMatch as bs

/-- Boolean substring containment of `w` in `t`, the semantics of the
Python expression `word in text` on strings. -/
def occursIn (w : List Char) : List Char → Bool
  | [] => w.isEmpty
  | t@(_ :: rest) => headMatch w t || occursIn w rest

/-- Score of one keyword list against the search text:
`sum(1 for word in words if word in text)` (line 92 of `server.py`). -/
def kwScore (text : String) (words : List String) : Nat :=
  words.countP (fun w => occursIn w.toList text.toList)

/-- Keyword list of the `wp-financeiro` category (lines 62-66). -/
def finKw : List String :=
  ["financeiro", "título", "receber", "pagar", "conta", "pagamento",
   "receita", "despesa", "saldo", "banco", "transferência", "contábil",
   "lançamento", "fluxo de caixa", "dre"]

/-- Keyword list of the `wp-abastecimentos` category (lines 67-70). -/
def abaKw : List String :=
  ["abastecimento", "venda", "combustível", "litro", "gasolina",
   "etanol", "diesel", "gnv", "bico", "bomba", "frentista"]

/-- Keyword list of the `wp-estoque` category (lines 71-74). -/
def estKw : List String :=
  ["estoque", "produto", "inventário", "reajuste", "movimentação",
   "entrada", "saída", "saldo", "armazenamento", "loja", "conveniência"]

/-- Keyword list of the `wp-clientes` category (lines 75-78). -/
def cliKw : List String :=
  ["cliente", "cadastro", "grupo", "segmentação", "relacionamento",
   "fidelidade", "cartão", "crédito cliente"]

/-- Keyword list of the `wp-analitico` category (lines 79-82). -/
def anaKw : List String :=
  ["análise", "kpi", "indicador", "performance", "desempenho",
   "comparativo", "tendência", "evolução", "métrica", "dashboard"]

/-- Keyword list of the `wp-executivo` category (lines 83-86). -/
def exeKw : List String :=
  ["executivo", "resumo", "visão geral", "consolidado", "gerencial",
   "diretoria", "overview"]

/-- The keyword dict of `detect_report_type` in its insertion order
(lines 61-87 of `server.py`). -/
def keywordTable : List (String × List String) :=
  [("wp-financeiro", finKw),
   ("wp-abastecimentos", abaKw),
   ("wp-estoque", estKw),
   ("wp-clientes", cliKw),
   ("wp-analitico", anaKw),
   ("wp-executivo", exeKw)]

/-- The in-place update `scores["wp-executivo"] = scores.get(...) + 10`
(line 97): the executive entry gains 10, order and other entries kept. -/
def addSectionsBonus (sc : List (String × Nat)) : List (String × Nat) :=
  sc.map (fun p => if p.1 == "wp-executivo" then (p.1, p.2 + 10) else p)

/-- The `scores` dict after lines 89-97 of `server.py`: keyword counts per
category in declaration order, plus the executive bonus when the request
carries a non-empty `sections` attachment. -/
def scoresFor (d : ReportData) : List (String × Nat) :=
  let text := searchText d
  let base := keywordTable.map (fun p => (p.1, kwScore text p.2))
  if d.sections.isEmpty then base else addSectionsBonus base

/-- `max` over the score values (Python `max(scores.values())`; the `0`
seed is harmless since scores are naturals and the dict is non-empty). -/
def pyMaxVal (a : Nat) : List (String × Nat) → Nat
  | [] => a
  | r :: rest => pyMaxVal (max a r.2) rest

/-- Python `max(iterable, key=...)` main loop: the accumulator is replaced
only when a later element is strictly greater, so the first maximal
element wins. Models `max(scores, key=scores.get)` (line 101). -/
def pyMaxAux (q : String × Nat) : List (String × Nat) → String × Nat
  | [] => q
  | r :: rest => pyMaxAux (if q.2 < r.2 then r else q) rest

/-- Lines 100-104 of `server.py`: return the first category attaining the
maximal score when that maximum is positive, otherwise the fallback. -/
def pickMax (sc : List (String × Nat)) : String :=
  if 0 < pyMaxVal 0 sc then
    match sc with
    | [] => "wp-data-report"
    | q :: rest => (pyMaxAux q rest).1
  else "wp-data-report"

/-- `detect_report_type` (lines 42-104 of `server.py`): score every
category against the search text, then return the first category
attaining the maximal score when that maximum is positive, otherwise the
generic fallback template. -/
def detect_report_type (d : ReportData) : String :=
  pickMax (scoresFor d)

/-- A value stored in the report data dict: the dict is heterogeneous, so
values are tagged by their shape. -/
inductive Val where
  | str (v : String)
  | cards (v : List SummaryCard)
  | strList (v : List String)
  | table (v : List (List String))
  | sectionList (v : List ReportSection)
deriving DecidableEq, Repr

/-- Python truthiness of an optional string argument (`if table_title:`):
false for `None` and for the empty string. -/
def truthyStr : Option String → Bool
  | none => false
  | some s => !s.isEmpty

/-- Python truthiness of an optional list argument (`if summary_cards:`):
false for `None` and for the empty list. -/
def truthyList {α : Type} : Option (List α) → Bool
  | none => false
  | some l => !l.isEmpty

/-- The six mandatory dict keys, in the order they are inserted by every
report-generating tool (lines 254-261, 338-345 and 425-432). -/
def fixedFieldKeys : List String :=
  ["reportTitle", "reportSubtitle", "clientName", "period", "reportType", "generatedDate"]

/-- The report data dict built identically by `generate_report_link`,
`generate_smart_report` and `generate_report` (lines 249-273 of
`server.py`): six mandatory entries in fixed order, then each optional
entry appended only when its argument is truthy. `now` stands for the
`datetime.now()` timestamp used when `generated_date` is falsy. -/
def buildReportData (report_title report_subtitle client_name period report_type : String)
    (generated_date : Option String) (now : String)
    (summary_cards : Option (List SummaryCard)) (table_title : Option String)
    (table_headers : Option (List String)) (table_data : Option (List (List String)))
    (sections : Option (List ReportSection)) : List (String × Val) :=
  let gd := if truthyStr generated_date then generated_date.getD "" else now
  [("reportTitle", Val.str report_title),
   ("reportSubtitle", Val.str report_subtitle),
   ("clientName", Val.str client_name),
   ("period", Val.str period),
   ("reportType", Val.str report_type),
   ("generatedDate", Val.str gd)]
  ++ (if truthyList summary_cards then [("summaryCards", Val.cards (summary_cards.getD []))] else [])
  ++ (if truthyStr table_title then [("tableTitle", Val.str (table_title.getD ""))] else [])
  ++ (if truthyList table_headers then [("tableHeaders", Val.strList (table_headers.getD []))] else [])
  ++ (if truthyList table_data then [("tableData", Val.table (table_data.getD []))] else [])
  ++ (if truthyList sections then [("sections", Val.sectionList (sections.getD []))] else [])

/-- The `options["reports"]` block (`{"save": True, "public": True}`). -/
structure ReportsOptions where
  save : Bool
  public : Bool
deriving DecidableEq, Repr

/-- The JSON body posted to `/api/report` (lines 131-136 of `server.py`):
template reference, data dict, and the options dict only when non-empty. -/
structure RenderPayload where
  templateName : String
  data : List (String × Val)
  options : Option (List (String × ReportsOptions))
deriving DecidableEq, Repr

/-- Lines 122-127: the options dict is empty unless `save_public` is set. -/
def buildOptions (save_public : Bool) : List (String × ReportsOptions) :=
  if save_public then [("reports", { save := true, public := true })] else []

/-- Lines 131-136: build the render payload; the `options` key is added
only when the options dict is truthy (non-empty). -/
def buildRenderPayload (template_name : String) (data : List (String × Val))
    (save_public : Bool) : RenderPayload :=
  let options := buildOptions save_public
  { templateName := template_name, data := data,
    options := if options.isEmpty then none else some options }

/-- The HTTP response observed by `_render_report`: status code, the two
headers it reads (absent is `none`), the response text and the body bytes. -/
structure Response where
  status : Nat
  permanentLinkHeader : Option String
  contentTypeHeader : Option String
  text : String
  content : List Nat
deriving DecidableEq, Repr

/-- The result dict of `_render_report` and the listing tools: one record
with optional fields, `none` meaning the key is absent from the dict. -/
structure RenderResult where
  success : Bool
  message : Option String := none
  template_used : Option String := none
  content_type : Option String := none
  size_bytes : Option Nat := none
  pdf_url : Option String := none
  has_public_link : Option Bool := none
  pdf_base64 : Option String := none
  error : Option String := none
  details : Option String := none
  template_attempted : Option String := none
  auto_selected : Option Bool := none
deriving DecidableEq, Repr

/-- Character at index `n` of the base64 alphabet. -/
def b64Char (n : Nat) : Char :=
  "ABCDEFGHIJKLMNOPQRSTUVWXYZabcdefghijklmnopqrstuvwxyz0123456789+/".toList.getD n 'A'

/-- Standard base64 of a byte list, three bytes at a time with `=`
padding: the behaviour of `base64.b64encode` on the response bytes. -/
def b64Chunks : List Nat → List Char
  | [] => []
  | [a] => [b64Char (a / 4), b64Char (a % 4 * 16), '=', '=']
  | [a, b] => [b64Char (a / 4), b64Char (a % 4 * 16 + b / 16), b64Char (b % 16 * 4), '=']
  | a :: b :: c :: rest =>
      b64Char (a / 4) :: b64Char (a % 4 * 16 + b / 16) ::
        b64Char (b % 16 * 4 + c / 64) :: b64Char (c % 64) :: b64Chunks rest

def b64encode (bs : List Nat) : String := String.mk (b64Chunks bs)

/-- Python string slicing `s[:n]`: the first `n` characters. -/
def pySlice (s : String) (n : Nat) : String := String.mk (s.toList.take n)

/-- `_render_report` (lines 107-182 of `server.py`) after the payload has
been posted. The single outbound call either raises (modelled as
`Except.error` with the exception text) or yields one `Response`; the
function never performs a second call. Mirrors the success branch with the
permanent-link fallback logic, the HTTP-error branch, and the
exception-to-structured-result branch. -/
def render_report (template_name : String) (return_base64 : Bool)
    (outcome : Except String Response) : RenderResult :=
  match outcome with
  | Except.error e =>
      { success := false,
        error := some e,
        details := some "Erro ao conectar com o JSReport" }
  | Except.ok response =>
      if response.status = 200 then
        let permanent_link := response.permanentLinkHeader.getD ""
        let base : RenderResult :=
          { success := true,
            message := some "Relatório gerado com sucesso!",
            template_used := some template_name,
            content_type := some (response.contentTypeHeader.getD "application/pdf"),
            size_bytes := some response.content.length }
        let withLink :=
          if !permanent_link.isEmpty then
            { base with pdf_url := some permanent_link, has_public_link := some true }
          else
            { base with has_public_link := some false }
        if permanent_link.isEmpty || return_base64 then
          { withLink with pdf_base64 := some (b64encode response.content) }
        else withLink
      else
        { success := false,
          error := some ("Erro HTTP " ++ toString response.status),
          details := some (if response.text.isEmpty then "Sem detalhes" else pySlice response.text 500),
          template_attempted := some template_name }

/-- One record of the odata templates listing, with the four fields the
tool projects out (lines 468-476). -/
structure TemplateRecord where
  name : Option String
  engine : Option String
  recipe : Option String
  shortid : Option String
deriving DecidableEq, Repr

/-- The response of `GET /odata/templates` as read by `list_templates`:
status, text, and the parsed `value` array. -/
structure OdataResponse where
  status : Nat
  text : String
  value : List TemplateRecord
deriving DecidableEq, Repr

/-- The result dict of `list_templates`, optional fields for absent keys. -/
structure ListTemplatesResult where
  success : Bool
  count : Option Nat := none
  templates : Option (List TemplateRecord) := none
  error : Option String := none
  details : Option String := none
deriving DecidableEq, Repr

/-- `list_templates` (lines 454-493 of `server.py`): one GET wrapped in
try/except; every failure path returns a structured result. -/
def list_templates (outcome : Except String OdataResponse) : ListTemplatesResult :=
  match outcome with
  | Except.error e => { success := false, error := some e }
  | Except.ok response =>
      if response.status = 200 then
        { success := true,
          count := some response.value.length,
          templates := some response.value }
      else
        { success := false,
          error := some ("Erro HTTP " ++ toString response.status),
          details := some (if response.text.isEmpty then "Sem detalhes" else pySlice response.text 500) }

/-! Concrete example inputs used by witnesses and counterexamples. -/

/-- A multi-section request whose title carries eleven financial keywords:
the financial score 11 exceeds the executive bonus score 10. -/
def exStuffed : ReportData :=
  { reportTitle := "financeiro receber pagar conta pagamento receita despesa banco transferência lançamento dre",
    reportType := "",
    reportSubtitle := "",
    sections := [{ title := "Financeiro", cards := [], tableHeaders := [], tableData := [] }] }

/-- A multi-section request with at most one keyword match elsewhere. -/
def exSectioned : ReportData :=
  { reportTitle := "venda",
    reportType := "",
    reportSubtitle := "",
    sections := [{ title := "Vendas", cards := [], tableHeaders := [], tableData := [] }] }

/-- A request in which financial and fuel-sales both score exactly 1. -/
def exTie : ReportData :=
  { reportTitle := "financeiro venda",
    reportType := "",
    reportSubtitle := "",
    sections := [] }

/-- A request with no keyword of any category. -/
def exBlank : ReportData :=
  { reportTitle := "", reportType := "", reportSubtitle := "", sections := [] }

/-- A 200 response carrying a permanent link, with body bytes `%PDF`. -/
def exResp200 : Response :=
  { status := 200,
    permanentLinkHeader := some "https://relatorio.example/reports/abc/content",
    contentTypeHeader := some "application/pdf",
    text := "",
    content := [37, 80, 68, 70] }

/-- A 503 response with a short error body. -/
def exResp503 : Response :=
  { status := 503,
    permanentLinkHeader := none,
    contentTypeHeader := none,
    text := "Service Unavailable",
    content := [] }

/-! Helper lemmas about the Python `max` loops and substring containment. -/

theorem le_pyMaxVal (l : List (String × Nat)) : ∀ a : Nat, a ≤ pyMaxVal a l := by
  induction l with
  | nil => intro a; exact Nat.le_refl a
  | cons r rest ih => intro a; exact Nat.le_trans (Nat.le_max_left _ _) (ih _)

theorem mem_le_pyMaxVal (l : List (String × Nat)) :
    ∀ (a : Nat) (p : String × Nat), p ∈ l → p.2 ≤ pyMaxVal a l := by
  induction l with
  | nil => intro a p hp; cases hp
  | cons r rest ih =>
    intro a p hp
    rcases List.mem_cons.mp hp with h | h
    · subst h
      exact Nat.le_trans (Nat.le_max_right _ _) (le_pyMaxVal _ _)
    · exact ih _ p h

theorem pyMaxVal_le (b : Nat) (l : List (String × Nat)) :
    ∀ a : Nat, a ≤ b → (∀ p ∈ l, p.2 ≤ b) → pyMaxVal a l ≤ b := by
  induction l with
  | nil => intro a ha _; exact ha
  | cons r rest ih =>
    intro a ha hl
    exact ih _ (max_le ha (hl r (List.mem_cons_self _ _)))
      (fun p hp => hl p (List.mem_cons_of_mem _ hp))

/-- The Python `max(..., key=...)` loop returns the first element attaining
the maximum of the values. -/
theorem pyMaxAux_first_max (l : List (String × Nat)) :
    ∀ q : String × Nat,
      (q :: l).find? (fun p => p.2 == pyMaxVal q.2 l) = some (pyMaxAux q l) := by
  induction l with
  | nil =>
    intro q
    simp [pyMaxVal, pyMaxAux, List.find?]
  | cons r rest ih =>
    intro q
    by_cases hlt : q.2 < r.2
    · have hmax : max q.2 r.2 = r.2 := max_eq_right (Nat.le_of_lt hlt)
      have hm : pyMaxVal q.2 (r :: rest) = pyMaxVal r.2 rest := by
        simp [pyMaxVal, hmax]
      have hqne : ¬((fun p : String × Nat => p.2 == pyMaxVal q.2 (r :: rest)) q = true) := by
        have hq2 : q.2 < pyMaxVal r.2 rest := Nat.lt_of_lt_of_le hlt (le_pyMaxVal _ _)
        simp only [hm, beq_iff_eq]
        omega
      have haux : pyMaxAux q (r :: rest) = pyMaxAux r rest := by
        simp [pyMaxAux, hlt]
      rw [haux,
        @List.find?_cons_of_neg _ (fun p => p.2 == pyMaxVal q.2 (r :: rest)) q (r :: rest) hqne]
      have hrec := ih r
      simpa [hm] using hrec
    · have hle : r.2 ≤ q.2 := Nat.le_of_not_lt hlt
      have hmax : max q.2 r.2 = q.2 := max_eq_left hle
      have hm : pyMaxVal q.2 (r :: rest) = pyMaxVal q.2 rest := by
        simp [pyMaxVal, hmax]
      have haux : pyMaxAux q (r :: rest) = pyMaxAux q rest := by
        simp [pyMaxAux, hlt]
      rw [haux]
      by_cases hq : q.2 = pyMaxVal q.2 rest
      · have hpos : (fun p : String × Nat => p.2 == pyMaxVal q.2 (r :: rest)) q = true := by
          simp only [hm, beq_iff_eq]
          exact hq
        rw [@List.find?_cons_of_pos _ (fun p => p.2 == pyMaxVal q.2 (r :: rest)) q (r :: rest) hpos]
        have hfind := ih q
        rw [@List.find?_cons_of_pos _ (fun p => p.2 == pyMaxVal q.2 rest) q rest
          (by simp only [beq_iff_eq]; exact hq)] at hfind
        exact hfind
      · have hqlt : q.2 < pyMaxVal q.2 rest :=
          Nat.lt_of_le_of_ne (le_pyMaxVal _ _) hq
        have hqneg : ¬((fun p : String × Nat => p.2 == pyMaxVal q.2 (r :: rest)) q = true) := by
          simp only [hm, beq_iff_eq]
          omega
        have hrneg : ¬((fun p : String × Nat => p.2 == pyMaxVal q.2 (r :: rest)) r = true) := by
          have hr2 : r.2 < pyMaxVal q.2 rest := Nat.lt_of_le_of_lt hle hqlt
          simp only [hm, beq_iff_eq]
          omega
        rw [@List.find?_cons_of_neg _ (fun p => p.2 == pyMaxVal q.2 (r :: rest)) q (r :: rest) hqneg,
          @List.find?_cons_of_neg _ (fun p => p.2 == pyMaxVal q.2 (r :: rest)) r rest hrneg]
        have hfind := ih q
        rw [@List.find?_cons_of_neg _ (fun p => p.2 == pyMaxVal q.2 rest) q rest
          (by simp only [beq_iff_eq]; omega)] at hfind
        simpa [hm] using hfind

/-- If the last element's value strictly exceeds every earlier value, the
Python `max` loop returns the last element. -/
theorem pyMaxAux_last (l : List (String × Nat)) :
    ∀ q p : String × Nat, (∀ r ∈ q :: l, r.2 < p.2) →
      pyMaxAux q (l ++ [p]) = p := by
  induction l with
  | nil =>
    intro q p h
    have hq : q.2 < p.2 := h q (List.mem_cons_self _ _)
    simp [pyMaxAux, hq]
  | cons r rest ih =>
    intro q p h
    show pyMaxAux (if q.2 < r.2 then r else q) (rest ++ [p]) = p
    apply ih
    intro x hx
    rcases List.mem_cons.mp hx with hx | hx
    · subst hx
      by_cases hqr : q.2 < r.2
      · simpa [hqr] using h r (by simp)
      · simpa [hqr] using h q (by simp)
    · exact h x (by simp [hx])

theorem headMatch_iff (w : List Char) :
    ∀ t : List Char, headMatch w t = true ↔ ∃ r, t = w ++ r := by
  induction w with
  | nil =>
    intro t
    simp [headMatch]
  | cons a as ih =>
    intro t
    cases t with
    | nil =>
      simp [headMatch]
    | cons b bs =>
      simp only [headMatch, Bool.and_eq_true, beq_iff_eq, ih bs]
      constructor
      · rintro ⟨rfl, r, rfl⟩
        exact ⟨r, rfl⟩
      · rintro ⟨r, hr⟩
        rw [List.cons_append] at hr
        cases hr
        exact ⟨rfl, r, rfl⟩

/-- `occursIn w t` holds exactly when `w` occurs contiguously inside `t`:
the semantics of Python substring containment. -/
theorem occursIn_iff (w : List Char) :
    ∀ t : List Char, occursIn w t = true ↔ ∃ l r, t = l ++ w ++ r := by
  intro t
  induction t with
  | nil =>
    simp only [occursIn, List.isEmpty_iff]
    constructor
    · rintro rfl
      exact ⟨[], [], rfl⟩
    · rintro ⟨l, r, hr⟩
      have hlen := congrArg List.length hr
      simp only [List.length_nil, List.length_append] at hlen
      exact List.length_eq_zero.mp (by omega)
  | cons c rest ih =>
    simp only [occursIn, Bool.or_eq_true, headMatch_iff, ih]
    constructor
    · rintro (⟨r, hr⟩ | ⟨l, r, hr⟩)
      · exact ⟨[], r, by simpa using hr⟩
      · exact ⟨c :: l, r, by simp [hr]⟩
    · rintro ⟨l, r, hr⟩
      cases l with
      | nil =>
        left
        exact ⟨r, by simpa using hr⟩
      | cons x xs =>
        right
        rw [List.cons_append, List.cons_append] at hr
        cases hr
        exact ⟨xs, r, rfl⟩

/-- Explicit form of the score list when the request has no `sections`. -/
theorem scoresFor_no_sections (d : ReportData) (hs : d.sections = []) :
    scoresFor d =
      [("wp-financeiro", kwScore (searchText d) finKw),
       ("wp-abastecimentos", kwScore (searchText d) abaKw),
       ("wp-estoque", kwScore (searchText d) estKw),
       ("wp-clientes", kwScore (searchText d) cliKw),
       ("wp-analitico", kwScore (searchText d) anaKw),
       ("wp-executivo", kwScore (searchText d) exeKw)] := by
  simp [scoresFor, keywordTable, hs]

/-- Explicit form of the score list when the request carries a non-empty
`sections` attachment: the executive entry gains the fixed bonus of 10. -/
theorem scoresFor_with_sections (d : ReportData) (hs : d.sections ≠ []) :
    scoresFor d =
      [("wp-financeiro", kwScore (searchText d) finKw),
       ("wp-abastecimentos", kwScore (searchText d) abaKw),
       ("wp-estoque", kwScore (searchText d) estKw),
       ("wp-clientes", kwScore (searchText d) cliKw),
       ("wp-analitico", kwScore (searchText d) anaKw),
       ("wp-executivo", kwScore (searchText d) exeKw + 10)] := by
  have hs' : d.sections.isEmpty = false := by
    cases h : d.sections with
    | nil => exact absurd h hs
    | cons a l => rfl
  simp only [scoresFor, hs', Bool.false_eq_true, if_false, keywordTable]
  rfl

theorem pyMaxVal_zero_cons (q : String × Nat) (rest : List (String × Nat)) :
    pyMaxVal 0 (q :: rest) = pyMaxVal q.2 rest := by
  simp [pyMaxVal, Nat.zero_max]

theorem pickMax_pos (q : String × Nat) (rest : List (String × Nat))
    (h0 : 0 < pyMaxVal 0 (q :: rest)) :
    pickMax (q :: rest) = (pyMaxAux q rest).1 := by
  unfold pickMax
  rw [if_pos h0]

theorem pickMax_not_pos (sc : List (String × Nat)) (h0 : ¬ 0 < pyMaxVal 0 sc) :
    pickMax sc = "wp-data-report" := by
  unfold pickMax
  rw [if_neg h0]

/-- With a positive maximum, `pickMax` returns the key of the first entry
whose value attains the maximum. -/
theorem pickMax_first_max (q : String × Nat) (rest : List (String × Nat))
    (h0 : 0 < pyMaxVal 0 (q :: rest)) :
    ((q :: rest).find? (fun p => p.2 == pyMaxVal 0 (q :: rest))).map Prod.fst
      = some (pickMax (q :: rest)) := by
  rw [pickMax_pos q rest h0, pyMaxVal_zero_cons, pyMaxAux_first_max rest q]
  rfl

/-- When the final entry strictly dominates all earlier entries, `pickMax`
returns its key. -/
theorem pickMax_top (l : List (String × Nat)) (q p : String × Nat)
    (h : ∀ r ∈ q :: l, r.2 < p.2) :
    pickMax (q :: (l ++ [p])) = p.1 := by
  have hmem : p ∈ q :: (l ++ [p]) := by simp
  have hle := mem_le_pyMaxVal (q :: (l ++ [p])) 0 p hmem
  have hq := h q (List.mem_cons_self _ _)
  have h0 : 0 < pyMaxVal 0 (q :: (l ++ [p])) := by omega
  rw [pickMax_pos _ _ h0, pyMaxAux_last l q p h]

/-- Each category's keyword list contains no duplicate keyword. -/
theorem keywordTable_nodup : ∀ p ∈ keywordTable, p.2.Nodup := by decide

/-- C2: for every request in which two or more categories attain the equal
maximum nonzero score, `detect_report_type` returns the category declared
earliest in the fixed order financial, fuel-sales, inventory, customers,
analytics, executive (the first entry of the score list attaining the
maximum); as a pure function it returns the same result on every call
with the same input. -/
theorem detect_tie_first_in_order (d : ReportData)
    (h0 : 0 < pyMaxVal 0 (scoresFor d))
    (htie : 2 ≤ (scoresFor d).countP (fun p => p.2 == pyMaxVal 0 (scoresFor d))) :
    ((scoresFor d).find? (fun p => p.2 == pyMaxVal 0 (scoresFor d))).map Prod.fst
      = some (detect_report_type d) := by
  have hd : detect_report_type d = pickMax (scoresFor d) := rfl
  rw [hd]
  rcases eq_or_ne d.sections [] with hs | hs
  · rw [scoresFor_no_sections d hs] at h0 ⊢
    exact pickMax_first_max _ _ h0
  · rw [scoresFor_with_sections d hs] at h0 ⊢
    exact pickMax_first_max _ _ h0

/-- Witness for the tie-break theorem: in `exTie` both the financial and
the fuel-sales categories score exactly 1 (the shared maximum), and
classification returns the financial category, declared first. -/
theorem detect_tie_first_in_order_w :
    0 < pyMaxVal 0 (scoresFor exTie)
    ∧ 2 ≤ (scoresFor exTie).countP (fun p => p.2 == pyMaxVal 0 (scoresFor exTie))
    ∧ ((scoresFor exTie).find? (fun p => p.2 == pyMaxVal 0 (scoresFor exTie))).map Prod.fst
        = some (detect_report_type exTie) :=
  ⟨by decide, by decide, detect_tie_first_in_order exTie (by decide) (by decide)⟩

/-- C1 counterexample: `exStuffed` carries a non-empty `sections`
attachment, yet classification returns the financial category, because
its title contains eleven financial keywords while the executive score is
only the bonus 10. This refutes the claim that the sections bonus routes
every multi-section request to the executive template regardless of the
keyword content. -/
theorem sections_bonus_overridden :
    exStuffed.sections ≠ []
    ∧ detect_report_type exStuffed = "wp-financeiro"
    ∧ detect_report_type exStuffed ≠ "wp-executivo" := by
  refine ⟨by decide, ?_, by decide⟩
  decide

/-- C1 (amended): for every request carrying a non-empty `sections`
attachment in which every non-executive category's keyword score is at
most 9, classification returns the executive category: its score is at
least the fixed bonus 10 and strictly exceeds every other score. -/
theorem sections_route_to_executive (d : ReportData)
    (hs : d.sections ≠ [])
    (hb : ∀ p ∈ keywordTable, p.1 ≠ "wp-executivo" → kwScore (searchText d) p.2 ≤ 9) :
    detect_report_type d = "wp-executivo" := by
  have hd : detect_report_type d = pickMax (scoresFor d) := rfl
  have hfin : kwScore (searchText d) finKw ≤ 9 :=
    hb ("wp-financeiro", finKw) (by simp [keywordTable]) (by decide)
  have haba : kwScore (searchText d) abaKw ≤ 9 :=
    hb ("wp-abastecimentos", abaKw) (by simp [keywordTable]) (by decide)
  have hest : kwScore (searchText d) estKw ≤ 9 :=
    hb ("wp-estoque", estKw) (by simp [keywordTable]) (by decide)
  have hcli : kwScore (searchText d) cliKw ≤ 9 :=
    hb ("wp-clientes", cliKw) (by simp [keywordTable]) (by decide)
  have hana : kwScore (searchText d) anaKw ≤ 9 :=
    hb ("wp-analitico", anaKw) (by simp [keywordTable]) (by decide)
  rw [hd, scoresFor_with_sections d hs]
  have hbound : ∀ r ∈ (("wp-financeiro", kwScore (searchText d) finKw) ::
      [("wp-abastecimentos", kwScore (searchText d) abaKw),
       ("wp-estoque", kwScore (searchText d) estKw),
       ("wp-clientes", kwScore (searchText d) cliKw),
       ("wp-analitico", kwScore (searchText d) anaKw)]),
      r.2 < kwScore (searchText d) exeKw + 10 := by
    intro r hr
    simp only [List.mem_cons, List.not_mem_nil, or_false] at hr
    rcases hr with hr | hr | hr | hr | hr <;> subst hr <;> simp <;> omega
  exact pickMax_top
    [("wp-abastecimentos", kwScore (searchText d) abaKw),
     ("wp-estoque", kwScore (searchText d) estKw),
     ("wp-clientes", kwScore (searchText d) cliKw),
     ("wp-analitico", kwScore (searchText d) anaKw)]
    ("wp-financeiro", kwScore (searchText d) finKw)
    ("wp-executivo", kwScore (searchText d) exeKw + 10) hbound

/-- Witness for the amended C1 theorem: `exSectioned` has a non-empty
`sections` attachment and each non-executive score is at most 9 (the
fuel-sales score is 1, the others 0), and classification returns the
executive category. -/
theorem sections_route_to_executive_w :
    exSectioned.sections ≠ []
    ∧ (∀ p ∈ keywordTable, p.1 ≠ "wp-executivo" → kwScore (searchText exSectioned) p.2 ≤ 9)
    ∧ detect_report_type exSectioned = "wp-executivo" :=
  ⟨by decide, by decide, sections_route_to_executive exSectioned (by decide) (by decide)⟩

/-- C4: for every request in which every category's keyword score is 0 and
no sections bonus applies (`sections` is empty), classification returns
the generic fallback template. -/
theorem no_keywords_fallback (d : ReportData)
    (hz : ∀ p ∈ keywordTable, kwScore (searchText d) p.2 = 0)
    (hs : d.sections = []) :
    detect_report_type d = "wp-data-report" := by
  have hd : detect_report_type d = pickMax (scoresFor d) := rfl
  have hfin : kwScore (searchText d) finKw = 0 := hz ("wp-financeiro", finKw) (by simp [keywordTable])
  have haba : kwScore (searchText d) abaKw = 0 := hz ("wp-abastecimentos", abaKw) (by simp [keywordTable])
  have hest : kwScore (searchText d) estKw = 0 := hz ("wp-estoque", estKw) (by simp [keywordTable])
  have hcli : kwScore (searchText d) cliKw = 0 := hz ("wp-clientes", cliKw) (by simp [keywordTable])
  have hana : kwScore (searchText d) anaKw = 0 := hz ("wp-analitico", anaKw) (by simp [keywordTable])
  have hexe : kwScore (searchText d) exeKw = 0 := hz ("wp-executivo", exeKw) (by simp [keywordTable])
  rw [hd, scoresFor_no_sections d hs]
  apply pickMax_not_pos
  have hle : pyMaxVal 0
      [("wp-financeiro", kwScore (searchText d) finKw),
       ("wp-abastecimentos", kwScore (searchText d) abaKw),
       ("wp-estoque", kwScore (searchText d) estKw),
       ("wp-clientes", kwScore (searchText d) cliKw),
       ("wp-analitico", kwScore (searchText d) anaKw),
       ("wp-executivo", kwScore (searchText d) exeKw)] ≤ 0 := by
    apply pyMaxVal_le 0 _ 0 (Nat.le_refl 0)
    intro p hp
    simp only [List.mem_cons, List.not_mem_nil, or_false] at hp
    rcases hp with hp | hp | hp | hp | hp | hp <;> subst hp <;> simp <;> omega
  omega

/-- Witness for the fallback theorem: the all-empty request matches no
keyword, has no sections, and classifies to the generic fallback. -/
theorem no_keywords_fallback_w :
    (∀ p ∈ keywordTable, kwScore (searchText exBlank) p.2 = 0)
    ∧ exBlank.sections = []
    ∧ detect_report_type exBlank = "wp-data-report" :=
  ⟨by decide, by decide, no_keywords_fallback exBlank (by decide) (by decide)⟩

/-- C5: for every request, each category's score equals the number of
distinct keywords of that category occurring as substrings of the
lowercased concatenated search text (the keyword lists are duplicate-free,
so counting matching entries counts distinct keywords, and a keyword
occurring several times in the text still counts once); and a keyword
matches exactly when it occurs contiguously inside the search text. -/
theorem kwScore_counts_distinct (d : ReportData) (p : String × List String)
    (hp : p ∈ keywordTable) :
    kwScore (searchText d) p.2
        = p.2.dedup.countP (fun w => occursIn w.toList (searchText d).toList)
      ∧ ∀ w : String, occursIn w.toList (searchText d).toList = true
          ↔ ∃ l r : List Char, (searchText d).toList = l ++ w.toList ++ r := by
  constructor
  · have hnd : p.2.Nodup := keywordTable_nodup p hp
    rw [List.dedup_eq_self.mpr hnd]
    rfl
  · intro w
    exact occursIn_iff w.toList (searchText d).toList

/-- Witness for the score-counting theorem at the financial category and
the tie example input. -/
theorem kwScore_counts_distinct_w :
    ("wp-financeiro", finKw) ∈ keywordTable
    ∧ (kwScore (searchText exTie) finKw
          = finKw.dedup.countP (fun w => occursIn w.toList (searchText exTie).toList)
        ∧ ∀ w : String, occursIn w.toList (searchText exTie).toList = true
            ↔ ∃ l r : List Char, (searchText exTie).toList = l ++ w.toList ++ r) :=
  ⟨by decide, kwScore_counts_distinct exTie ("wp-financeiro", finKw) (by decide)⟩

/-- C3: on a successful render (HTTP status 200), the result shape follows
the permanent-link fallback policy: with a non-empty permanent link and
`return_base64` false, the result carries the link and no inline base64
payload; with the link and `return_base64` true, it carries both; with no
link, it carries the inline payload (mandatory fallback) and no link. -/
theorem render_success_shapes (t : String) (rb : Bool) (resp : Response)
    (h200 : resp.status = 200) :
    (render_report t rb (Except.ok resp)).success = true
    ∧ (resp.permanentLinkHeader.getD "" ≠ "" → rb = false →
        (render_report t rb (Except.ok resp)).pdf_url = some (resp.permanentLinkHeader.getD "")
        ∧ (render_report t rb (Except.ok resp)).pdf_base64 = none)
    ∧ (resp.permanentLinkHeader.getD "" ≠ "" → rb = true →
        (render_report t rb (Except.ok resp)).pdf_url = some (resp.permanentLinkHeader.getD "")
        ∧ (render_report t rb (Except.ok resp)).pdf_base64 = some (b64encode resp.content))
    ∧ (resp.permanentLinkHeader.getD "" = "" →
        (render_report t rb (Except.ok resp)).pdf_base64 = some (b64encode resp.content)
        ∧ (render_report t rb (Except.ok resp)).pdf_url = none) := by
  by_cases hl : resp.permanentLinkHeader.getD "" = ""
  · have hres : render_report t rb (Except.ok resp) =
        { success := true,
          message := some "Relatório gerado com sucesso!",
          template_used := some t,
          content_type := some (resp.contentTypeHeader.getD "application/pdf"),
          size_bytes := some resp.content.length,
          has_public_link := some false,
          pdf_base64 := some (b64encode resp.content) } := by
      simp only [render_report]
      rw [h200, hl]
      rfl
    rw [hres]
    exact ⟨rfl, fun hc _ => absurd hl hc, fun hc _ => absurd hl hc, fun _ => ⟨rfl, rfl⟩⟩
  · have hf : (resp.permanentLinkHeader.getD "").isEmpty = false := by
      rw [Bool.eq_false_iff]
      intro hc
      exact hl ((String.isEmpty_iff _).mp hc)
    cases rb with
    | false =>
      have hres : render_report t false (Except.ok resp) =
          { success := true,
            message := some "Relatório gerado com sucesso!",
            template_used := some t,
            content_type := some (resp.contentTypeHeader.getD "application/pdf"),
            size_bytes := some resp.content.length,
            pdf_url := some (resp.permanentLinkHeader.getD ""),
            has_public_link := some true } := by
        simp only [render_report]
        rw [h200, hf]
        rfl
      rw [hres]
      exact ⟨rfl, fun _ _ => ⟨rfl, rfl⟩, fun _ hc => absurd hc (by decide),
        fun hc => absurd hc hl⟩
    | true =>
      have hres : render_report t true (Except.ok resp) =
          { success := true,
            message := some "Relatório gerado com sucesso!",
            template_used := some t,
            content_type := some (resp.contentTypeHeader.getD "application/pdf"),
            size_bytes := some resp.content.length,
            pdf_url := some (resp.permanentLinkHeader.getD ""),
            has_public_link := some true,
            pdf_base64 := some (b64encode resp.content) } := by
        simp only [render_report]
        rw [h200, hf]
        rfl
      rw [hres]
      exact ⟨rfl, fun _ hc => absurd hc (by decide), fun _ _ => ⟨rfl, rfl⟩,
        fun hc => absurd hc hl⟩

/-- Witness for the success-shape theorem at a 200 response carrying a
permanent link. -/
theorem render_success_shapes_w :
    exResp200.status = 200
    ∧ ((render_report "wp-financeiro" false (Except.ok exResp200)).success = true
      ∧ (exResp200.permanentLinkHeader.getD "" ≠ "" → false = false →
          (render_report "wp-financeiro" false (Except.ok exResp200)).pdf_url
              = some (exResp200.permanentLinkHeader.getD "")
          ∧ (render_report "wp-financeiro" false (Except.ok exResp200)).pdf_base64 = none)
      ∧ (exResp200.permanentLinkHeader.getD "" ≠ "" → false = true →
          (render_report "wp-financeiro" false (Except.ok exResp200)).pdf_url
              = some (exResp200.permanentLinkHeader.getD "")
          ∧ (render_report "wp-financeiro" false (Except.ok exResp200)).pdf_base64
              = some (b64encode exResp200.content))
      ∧ (exResp200.permanentLinkHeader.getD "" = "" →
          (render_report "wp-financeiro" false (Except.ok exResp200)).pdf_base64
              = some (b64encode exResp200.content)
          ∧ (render_report "wp-financeiro" false (Except.ok exResp200)).pdf_url = none)) :=
  ⟨rfl, render_success_shapes "wp-financeiro" false exResp200 rfl⟩

/-- C6: the render payload carries no `options` key at all when
`save_public` is false (the empty options dict is not sent), and carries
the save-and-public block when `save_public` is true. -/
theorem options_block_presence (t : String) (data : List (String × Val)) :
    (buildRenderPayload t data false).options = none
    ∧ (buildRenderPayload t data true).options
        = some [("reports", { save := true, public := true })] :=
  ⟨rfl, rfl⟩

/-- C7: on a non-success HTTP status the result is a failure carrying the
numeric status code inside its error string, a details string of at most
500 characters, and neither a permanent link nor an inline payload; the
model consumes exactly one response, so no retry happens. -/
theorem render_http_error (t : String) (rb : Bool) (resp : Response)
    (h : resp.status ≠ 200) :
    (render_report t rb (Except.ok resp)).success = false
    ∧ (∃ pre : List Char,
        ((render_report t rb (Except.ok resp)).error.getD "").toList
          = pre ++ (toString resp.status).toList)
    ∧ (render_report t rb (Except.ok resp)).details.isSome = true
    ∧ ((render_report t rb (Except.ok resp)).details.getD "").length ≤ 500
    ∧ (render_report t rb (Except.ok resp)).pdf_url = none
    ∧ (render_report t rb (Except.ok resp)).pdf_base64 = none := by
  have hres : render_report t rb (Except.ok resp) =
      { success := false,
        error := some ("Erro HTTP " ++ toString resp.status),
        details := some (if resp.text.isEmpty then "Sem detalhes" else pySlice resp.text 500),
        template_attempted := some t } := by
    simp only [render_report]
    rw [if_neg h]
  rw [hres]
  refine ⟨rfl, ⟨"Erro HTTP ".toList, String.data_append _ _⟩, rfl, ?_, rfl, rfl⟩
  by_cases ht : resp.text.isEmpty
  · simp only [Option.getD_some, if_pos ht]
    decide
  · simp only [Option.getD_some, if_neg ht]
    show (resp.text.toList.take 500).length ≤ 500
    rw [List.length_take]
    exact min_le_left _ _

/-- Witness for the HTTP-error theorem at a 503 response. -/
theorem render_http_error_w :
    exResp503.status ≠ 200
    ∧ ((render_report "wp-financeiro" false (Except.ok exResp503)).success = false
      ∧ (∃ pre : List Char,
          ((render_report "wp-financeiro" false (Except.ok exResp503)).error.getD "").toList
            = pre ++ (toString exResp503.status).toList)
      ∧ (render_report "wp-financeiro" false (Except.ok exResp503)).details.isSome = true
      ∧ ((render_report "wp-financeiro" false (Except.ok exResp503)).details.getD "").length ≤ 500
      ∧ (render_report "wp-financeiro" false (Except.ok exResp503)).pdf_url = none
      ∧ (render_report "wp-financeiro" false (Except.ok exResp503)).pdf_base64 = none) :=
  ⟨by decide, render_http_error "wp-financeiro" false exResp503 (by decide)⟩

/-- C8: the modelled operations are total and never raise: on every
outcome, including a transport error, the result either succeeds or is a
failure carrying an error field. The three report tools all delegate to
`_render_report` (modelled by `render_report`); `list_templates` is
modelled directly, and the remaining tools repeat the same wrapper. -/
theorem operations_return_structured_results (t : String) (rb : Bool)
    (ro : Except String Response) (lo : Except String OdataResponse) :
    ((render_report t rb ro).success = true
      ∨ ((render_report t rb ro).success = false
        ∧ (render_report t rb ro).error.isSome = true))
    ∧ ((list_templates lo).success = true
      ∨ ((list_templates lo).success = false
        ∧ (list_templates lo).error.isSome = true)) := by
  constructor
  · cases ro with
    | error e => exact Or.inr ⟨rfl, rfl⟩
    | ok resp =>
      by_cases h : resp.status = 200
      · left
        simp only [render_report]
        rw [h]
        simp [apply_ite RenderResult.success]
      · right
        simp only [render_report]
        rw [if_neg h]
        exact ⟨rfl, rfl⟩
  · cases lo with
    | error e => exact Or.inr ⟨rfl, rfl⟩
    | ok resp =>
      by_cases h : resp.status = 200
      · left
        simp only [list_templates]
        rw [if_pos h]
      · right
        simp only [list_templates]
        rw [if_neg h]
        exact ⟨rfl, rfl⟩

/-- C9 counterexample: a transport failure (exception, no response
received) produces a failure result that does not carry the attempted
template identifier: the exception branch of `_render_report` builds its
dict without `template_attempted`. -/
theorem transport_failure_lacks_template :
    (render_report "wp-financeiro" false (Except.error "connection refused")).success = false
    ∧ (render_report "wp-financeiro" false
        (Except.error "connection refused")).template_attempted = none :=
  ⟨rfl, rfl⟩

/-- C9 (amended): a failure result for a service-reported HTTP error
carries the attempted template identifier, while a transport-error
failure omits it. -/
theorem failure_template_attempted (t : String) (rb : Bool) (resp : Response) (e : String)
    (h : resp.status ≠ 200) :
    (render_report t rb (Except.ok resp)).template_attempted = some t
    ∧ (render_report t rb (Except.error e)).template_attempted = none := by
  constructor
  · simp only [render_report]
    rw [if_neg h]
  · rfl

/-- Witness for the amended template-attempted theorem. -/
theorem failure_template_attempted_w :
    exResp503.status ≠ 200
    ∧ ((render_report "wp-estoque" true (Except.ok exResp503)).template_attempted
          = some "wp-estoque"
      ∧ (render_report "wp-estoque" true (Except.error "timeout")).template_attempted = none) :=
  ⟨by decide, failure_template_attempted "wp-estoque" true exResp503 "timeout" (by decide)⟩

/-- C10: the report data dict always starts with the six mandatory keys in
their fixed order, and each optional entry's key is present exactly when
the corresponding argument is truthy (neither absent nor empty); an absent
or empty optional argument contributes no entry at all, rather than a
null or empty placeholder. -/
theorem report_data_keys (report_title report_subtitle client_name period report_type : String)
    (generated_date : Option String) (now : String)
    (summary_cards : Option (List SummaryCard)) (table_title : Option String)
    (table_headers : Option (List String)) (table_data : Option (List (List String)))
    (sections : Option (List ReportSection)) :
    (buildReportData report_title report_subtitle client_name period report_type
        generated_date now summary_cards table_title table_headers table_data
        sections).map Prod.fst
      = fixedFieldKeys
        ++ (if truthyList summary_cards then ["summaryCards"] else [])
        ++ (if truthyStr table_title then ["tableTitle"] else [])
        ++ (if truthyList table_headers then ["tableHeaders"] else [])
        ++ (if truthyList table_data then ["tableData"] else [])
        ++ (if truthyList sections then ["sections"] else []) := by
  simp only [buildReportData, fixedFieldKeys]
  split_ifs <;> rfl

end JsreportServer
